import Mathlib

/-!
Verification of the SAC (Soft Actor-Critic) implementation in
`mushroom/algorithms/actor_critic/sac.py`.

The numeric payload of a torch tensor element is modelled as a real number;
the autograd graph attachment (`requires_grad` of the result of an
operation) is modelled as a boolean flag propagated exactly as torch
propagates it: an op's output is attached iff some input is attached,
except for operations documented to run under `torch.no_grad()` (such as
`torch.distributions.Distribution.sample`), whose output is detached.
-/

namespace SACSpec

/-- One element of a torch tensor: its value and whether it is attached to
the autograd graph (`requires_grad` of the op result). -/
structure TReal where
  val : ℝ
  grad : Bool

noncomputable def TReal.add (x y : TReal) : TReal := ⟨x.val + y.val, x.grad || y.grad⟩

noncomputable def TReal.sub (x y : TReal) : TReal := ⟨x.val - y.val, x.grad || y.grad⟩

noncomputable def TReal.mul (x y : TReal) : TReal := ⟨x.val * y.val, x.grad || y.grad⟩

/-- `x.pow(2)`. -/
noncomputable def TReal.pow2 (x : TReal) : TReal := ⟨x.val ^ 2, x.grad⟩

noncomputable def TReal.tanh (x : TReal) : TReal := ⟨Real.tanh x.val, x.grad⟩

noncomputable def TReal.exp (x : TReal) : TReal := ⟨Real.exp x.val, x.grad⟩

noncomputable def TReal.log (x : TReal) : TReal := ⟨Real.log x.val, x.grad⟩

/-- A constant tensor element (a numeric literal, or a tensor obtained from
numpy via `torch.from_numpy`, which never requires grad). -/
def TReal.c (r : ℝ) : TReal := ⟨r, false⟩

/-- `torch.sum` over a tensor dimension: value is the sum, output is
attached iff some summand is. -/
noncomputable def TReal.sumL (l : List TReal) : TReal :=
  l.foldr TReal.add (TReal.c 0)

/-- `torch.distributions.Normal(loc, scale).sample()`: the value is
`loc + scale * eps` for a standard-normal draw `eps`, and torch computes
it inside a `torch.no_grad()` block, so the result is detached. -/
def nsample (loc scale : TReal) (eps : ℝ) : TReal :=
  ⟨loc.val + scale.val * eps, false⟩

/-- `torch.distributions.Normal(loc, scale).log_prob(x)`; torch computes
`-((x - loc)**2) / (2 * scale**2) - scale.log() - log(sqrt(2*pi))`, a
differentiable function of `loc`, `scale` and `x`. -/
noncomputable def nlogProb (loc scale x : TReal) : TReal :=
  ⟨-((x.val - loc.val) ^ 2) / (2 * scale.val ^ 2) - Real.log scale.val
      - Real.log (Real.sqrt (2 * Real.pi)),
   loc.grad || scale.grad || x.grad⟩

/-!
## SACPolicy (sac.py lines 17-76)

A batch element is processed per action dimension; the inputs of one
dimension of one batch row are bundled in `DimIn`: the outputs of the mu
and sigma approximators at the state (attached tensors during training),
the standard-normal noise consumed by `dist.sample()`, and the constants
`_delta_a`, `_central_a` of that dimension (obtained from numpy in
`SACPolicy.__init__`, hence grad-free).
-/

/-- Inputs of `compute_action_and_log_prob_t` for one action dimension of
one batch row. -/
structure DimIn where
  mu : TReal
  logSigma : TReal
  eps : ℝ
  deltaA : ℝ
  centralA : ℝ

/-- `SACPolicy.__init__` (lines 42-43): `_delta_a = 0.5*(max_a - min_a)`,
`_central_a = 0.5*(max_a + min_a)`; bundles one dimension's inputs. -/
def mkDim (mu logSigma : TReal) (eps minA maxA : ℝ) : DimIn :=
  ⟨mu, logSigma, eps, 0.5 * (maxA - minA), 0.5 * (maxA + minA)⟩

/-- `SACPolicy.distribution` (lines 70-73): the scale of the Normal is
`log_sigma.exp()`. -/
noncomputable def scaleDim (d : DimIn) : TReal := d.logSigma.exp

/-- Line 58: `a_raw = dist.sample()`. -/
noncomputable def aRawDim (d : DimIn) : TReal := nsample d.mu (scaleDim d) d.eps

/-- Line 59: `a = torch.tanh(a_raw)`. -/
noncomputable def aDim (d : DimIn) : TReal := (aRawDim d).tanh

/-- Line 60: `a_true = a*self._delta_a + self._central_a`. -/
noncomputable def aTrueDim (d : DimIn) : TReal :=
  ((aDim d).mul (TReal.c d.deltaA)).add (TReal.c d.centralA)

/-- Lines 63-64: `log_prob = dist.log_prob(a_raw)` then
`log_prob -= torch.log(1. - a.pow(2) + 1e-6)`, one dimension. -/
noncomputable def logProbDim (d : DimIn) : TReal :=
  (nlogProb d.mu (scaleDim d) (aRawDim d)).sub
    ((((TReal.c 1).sub (aDim d).pow2).add (TReal.c 1e-6)).log)

/-- `SACPolicy.compute_action_and_log_prob_t` with `compute_log_prob=True`
(lines 56-66), one batch row: the action row and the row of the log-prob
tensor after `log_prob.sum(dim=1, keepdim=True)` (a single element kept). -/
noncomputable def computeActionAndLogProbT (row : List DimIn) :
    List TReal × List TReal :=
  (row.map aTrueDim, [TReal.sumL (row.map logProbDim)])

/-- `SACPolicy.compute_action_and_log_prob` (lines 51-54): detaches both
results and converts them to plain numerics (the log-prob row is flattened
to a scalar per batch row). -/
noncomputable def computeActionAndLogProb (row : List DimIn) : List ℝ × ℝ :=
  ((row.map aTrueDim).map TReal.val, (TReal.sumL (row.map logProbDim)).val)

/-!
## SAC orchestrator (sac.py lines 79-245)

Approximator weight vectors (`get_weights`/`set_weights` payloads) are
modelled as `List ℝ`.  The critic ensemble has exactly two members
(asserted at construction), kept as explicit pairs of weight vectors.
-/

/-- A weight vector as returned by `get_weights()`. -/
def Params : Type := List ℝ

/-- `SAC._update_target` body for one ensemble member (lines 209-211):
`tau * online + (1 - tau) * target`, elementwise numpy arithmetic. -/
noncomputable def softUpdate (tau : ℝ) (online target : Params) : Params :=
  List.zipWith (fun w v => tau * w + (1 - tau) * v) online target

/-- The mutable state of a `SAC` agent: replay memory contents plus the
weight vectors of the actor approximators, the two online critic members,
the two target critic members, and `log_alpha`.  Replay transitions are
abstracted by a type `τ`; only their count gates learning. -/
structure SACState (τ : Type) where
  mem : List τ
  muW : Params
  sigmaW : Params
  c0 : Params
  c1 : Params
  t0 : Params
  t1 : Params
  logAlpha : ℝ

/-- `SAC._update_target` (lines 203-211): soft update applied
independently to each of the two ensemble members. -/
noncomputable def updateTarget {τ : Type} (tau : ℝ) (s : SACState τ) : SACState τ :=
  { s with t0 := softUpdate tau s.c0 s.t0, t1 := softUpdate tau s.c1 s.t1 }

/-- `SAC._init_target` (lines 178-185): each target member's weights are
set to the corresponding online member's weights. -/
def initTarget {τ : Type} (s : SACState τ) : SACState τ :=
  { s with t0 := s.c0, t1 := s.c1 }

/-- Weight-level effect of `SAC.__init__` (lines 114-156): the four
regressors come out of construction with arbitrary (randomly initialized)
weights — `tInit0`, `tInit1` are the target members' pre-copy weights —
`log_alpha` is created as the tensor `0.`, the replay memory starts empty,
and `_init_target` is then run (line 152). -/
def mkSAC {τ : Type} (muW sigmaW c0 c1 tInit0 tInit1 : Params) : SACState τ :=
  initTarget
    { mem := [], muW := muW, sigmaW := sigmaW, c0 := c0, c1 := c1,
      t0 := tInit0, t1 := tInit1, logAlpha := 0 }

/-!
### Replay memory

`mushroom.utils.replay_memory.ReplayMemory` is not under `src/`; it is
modelled from the spec. -/

/-- Modelled from the spec: `ReplayMemory` (module
`mushroom.utils.replay_memory`, not under `src/`) is a "bounded circular
store of transitions": `add` appends, keeping at most the newest
`maxSize` items. -/
def memAdd {τ : Type} (maxSize : ℕ) (mem dataset : List τ) : List τ :=
  (mem ++ dataset).drop ((mem ++ dataset).length - maxSize)

/-- Modelled from the spec: `ReplayMemory.size` is the current number of
stored transitions. -/
def memSize {τ : Type} (mem : List τ) : ℕ := mem.length

/-- Modelled from the spec: `ReplayMemory.initialized` reports "whether it
has reached a minimum initialized size" (`initial_replay_size`). -/
def memInitialized {τ : Type} (initialSize : ℕ) (mem : List τ) : Prop :=
  initialSize ≤ memSize mem

instance {τ : Type} (n : ℕ) (mem : List τ) :
    Decidable (memInitialized n mem) := by
  unfold memInitialized; infer_instance

/-- Fixed configuration of a `SAC` agent (constructor arguments). -/
structure SACCfg where
  batchSize : ℕ
  initialSize : ℕ
  maxSize : ℕ
  warmup : ℕ
  tau : ℝ
  gamma : ℝ

/-- One sampled batch row as used by `SAC.fit`: the reward and absorbing
flag of the transition, the policy-head inputs at `next_state` (used by
`_next_q`), plus opaque tokens `st`, `ac` standing for the stored state
and action arrays fed to the critic fit. -/
structure BatchRow (σ : Type) where
  st : σ
  ac : σ
  reward : ℝ
  absorbing : ℝ
  nextDims : List DimIn

/-- The opaque external collaborators consumed by `SAC.fit`: the uniform
batch sampler of the replay memory, the actor-optimizer step on each
approximator's weights, the Adam step on `log_alpha`
(`SAC._update_alpha`), the regression step of the two-member critic
ensemble toward a target vector (`critic.fit`), and the no-grad
min-ensemble prediction of the target critic given its two members'
weights (`target_critic.predict`). -/
structure Oracle (τ σ : Type) where
  sample : List τ → ℕ → List (BatchRow σ)
  muStep : List (BatchRow σ) → Params → Params
  sigmaStep : List (BatchRow σ) → Params → Params
  alphaStep : List (BatchRow σ) → ℝ → ℝ
  criticStep : List (BatchRow σ) → List ℝ → Params → Params → Params × Params
  tpredict : Params → Params → BatchRow σ → List ℝ → ℝ

/-- `SAC._next_q` (lines 213-237) for one batch row: draw `a` and its
log-prob no-gradient from the current policy at `next_state`
(`compute_action_and_log_prob`), then
`q = target_critic.predict(next_state, a) - alpha_np * log_prob_next`
and `q *= 1 - absorbing`. -/
noncomputable def nextQRow {σ : Type} (tp : BatchRow σ → List ℝ → ℝ)
    (alphaNp : ℝ) (r : BatchRow σ) : ℝ :=
  let al := computeActionAndLogProb r.nextDims
  (tp r al.1 - alphaNp * al.2) * (1 - r.absorbing)

/-- Lines 170-171 of `SAC.fit`: `q = reward + gamma * q_next`, per row. -/
noncomputable def criticTargetBatch {σ : Type} (tp : BatchRow σ → List ℝ → ℝ)
    (alphaNp gamma : ℝ) (batch : List (BatchRow σ)) : List ℝ :=
  batch.map (fun r => r.reward + gamma * nextQRow tp alphaNp r)

/-- `self._alpha_np` (lines 239-245): `exp(log_alpha)` detached. -/
noncomputable def alphaNpOf (logAlpha : ℝ) : ℝ := Real.exp logAlpha

/-- The batch sampled inside a `fit` call: `self._replay_memory.get(
self._batch_size)` on the memory after the `add` of line 159. -/
def sampledBatch {τ σ : Type} (cfg : SACCfg) (o : Oracle τ σ)
    (s : SACState τ) (dataset : List τ) : List (BatchRow σ) :=
  o.sample (memAdd cfg.maxSize s.mem dataset) cfg.batchSize

/-- Actor/temperature phase of `SAC.fit` (lines 164-168): when the
(post-add) replay size exceeds `warmup_transitions`, one actor-optimizer
step is taken on the mu and sigma weights and `_update_alpha` performs one
step on `log_alpha`; otherwise nothing changes. -/
def actorPhase {τ σ : Type} (cfg : SACCfg) (o : Oracle τ σ)
    (batch : List (BatchRow σ)) (newMem : List τ) (s : SACState τ) :
    SACState τ :=
  if cfg.warmup < memSize newMem then
    { s with muW := o.muStep batch s.muW,
             sigmaW := o.sigmaStep batch s.sigmaW,
             logAlpha := o.alphaStep batch s.logAlpha }
  else s

/-- The critic regression target a `fit` call builds (lines 170-171),
evaluated after the actor/temperature phase (so with the post-update
`log_alpha`, matching the statement order in `fit`). -/
noncomputable def fitTargets {τ σ : Type} (cfg : SACCfg) (o : Oracle τ σ)
    (s : SACState τ) (dataset : List τ) : List ℝ :=
  let newMem := memAdd cfg.maxSize s.mem dataset
  let batch := sampledBatch cfg o s dataset
  let s1 := actorPhase cfg o batch newMem s
  criticTargetBatch (o.tpredict s.t0 s.t1) (alphaNpOf s1.logAlpha)
    cfg.gamma batch

/-- `SAC.fit` (lines 158-176): add the dataset to replay memory; if the
memory is initialized, sample a batch, run the actor/temperature phase
when past warmup, fit the critic ensemble toward the bootstrapped target,
and soft-update the target networks; otherwise return with nothing else
touched. -/
noncomputable def fit {τ σ : Type} (cfg : SACCfg) (o : Oracle τ σ)
    (s : SACState τ) (dataset : List τ) : SACState τ :=
  let newMem := memAdd cfg.maxSize s.mem dataset
  if memInitialized cfg.initialSize newMem then
    let batch := sampledBatch cfg o s dataset
    let s1 := actorPhase cfg o batch newMem s
    let q := fitTargets cfg o s dataset
    let c := o.criticStep batch q s1.c0 s1.c1
    updateTarget cfg.tau
      { s1 with mem := newMem, c0 := c.1, c1 := c.2 }
  else
    { s with mem := newMem }

/-!
## Critic parameter dict handling in `SAC.__init__` (lines 123-137)

A Python params dict is modelled by the keys this code reads or writes
(`'n_models'`, `'prediction'`); Python object identity is modelled by a
heap (`List PyDict`) addressed by indices, since line 123-131 mutate the
caller's object in place while line 133 takes a `deepcopy`.
-/

/-- A params dict, restricted to the keys `SAC.__init__` touches; `none`
models an absent key. -/
structure PyDict where
  nModels : Option ℕ
  prediction : Option String

/-- Lines 123-126: `assert critic_params['n_models'] == 2` when the key is
present, else insert `2`; `none` models the `AssertionError`. -/
def forceNModels (d : PyDict) : Option PyDict :=
  match d.nModels with
  | some n => if n = 2 then some d else none
  | none => some { d with nModels := some 2 }

/-- Lines 128-131: `assert critic_params['prediction'] == 'min'` when the
key is present, else insert `'min'`. -/
def forceMin (d : PyDict) : Option PyDict :=
  match d.prediction with
  | some p => if p = "min" then some d else none
  | none => some { d with prediction := some "min" }

/-- Lines 123-131 in order: the `n_models` check runs first, then the
`prediction` check. -/
def processCriticParams (d : PyDict) : Option PyDict :=
  (forceNModels d).bind forceMin

/-- Heap-level effect of `SAC.__init__` lines 123-137 on the params dicts:
the caller's dict at `criticRef` is mutated in place by the two key
checks (that mutated object is then used to build the online critic), and
`target_critic_params = deepcopy(critic_params)` (line 133) allocates a
fresh object with the mutated value; returns the new heap and the ref of
the copy, or `none` when an assertion fails. -/
def sacInitDicts (heap : List PyDict) (criticRef : ℕ) :
    Option (List PyDict × ℕ) :=
  match heap[criticRef]? with
  | none => none
  | some d =>
    match processCriticParams d with
    | none => none
    | some d2 => some ((heap.set criticRef d2) ++ [d2], heap.length)

/-!
## Helper lemmas
-/

lemma neg_one_lt_tanh (x : ℝ) : -1 < Real.tanh x := by
  rw [Real.tanh_eq_sinh_div_cosh, lt_div_iff₀ (Real.cosh_pos x)]
  have h := Real.sinh_lt_cosh (-x)
  rw [Real.sinh_neg, Real.cosh_neg] at h
  linarith

lemma tanh_lt_one (x : ℝ) : Real.tanh x < 1 := by
  rw [Real.tanh_eq_sinh_div_cosh, div_lt_one (Real.cosh_pos x)]
  exact Real.sinh_lt_cosh x

lemma tanh_sq_lt_one (x : ℝ) : Real.tanh x ^ 2 < 1 := by
  have h1 := neg_one_lt_tanh x
  have h2 := tanh_lt_one x
  nlinarith

lemma sumL_val (l : List TReal) :
    (TReal.sumL l).val = (l.map TReal.val).sum := by
  induction l with
  | nil => simp [TReal.sumL, TReal.c]
  | cons h t ih =>
      simp only [TReal.sumL, List.foldr_cons, List.map_cons, List.sum_cons,
        TReal.add] at *
      rw [ih]

lemma softUpdate_one (c t : Params) (h : c.length = t.length) :
    softUpdate 1 c t = c := by
  induction c generalizing t with
  | nil => simp [softUpdate]
  | cons w c ih =>
      cases t with
      | nil => simp at h
      | cons v t =>
          have hh : (1 : ℝ) * w + (1 - 1) * v = w := by ring
          simp only [softUpdate, List.zipWith_cons_cons, hh]
          exact congrArg (List.cons w) (ih t (by simpa using h))

lemma softUpdate_zero (c t : Params) (h : c.length = t.length) :
    softUpdate 0 c t = t := by
  induction c generalizing t with
  | nil => cases t with
      | nil => simp [softUpdate]
      | cons v t => simp at h
  | cons w c ih =>
      cases t with
      | nil => simp at h
      | cons v t =>
          have hh : (0 : ℝ) * w + (1 - 0) * v = v := by ring
          simp only [softUpdate, List.zipWith_cons_cons, hh]
          exact congrArg (List.cons v) (ih t (by simpa using h))

lemma softUpdate_eq_iff (tau : ℝ) (c t : Params) (h : c.length = t.length)
    (htau : tau ≠ 0) : softUpdate tau c t = t → c = t := by
  induction c generalizing t with
  | nil => cases t with
      | nil => intro _; rfl
      | cons v t => simp at h
  | cons w c ih =>
      cases t with
      | nil => simp at h
      | cons v t =>
          simp only [softUpdate, List.zipWith_cons_cons]
          intro heq
          rw [List.cons_eq_cons] at heq
          obtain ⟨h1, h2⟩ := heq
          have hw : tau * w = tau * v := by nlinarith [h1]
          rw [List.cons_eq_cons]
          exact ⟨mul_left_cancel₀ htau hw, ih t (by simpa using h) h2⟩

lemma softUpdate_ne (tau : ℝ) (c t : Params) (h : c.length = t.length)
    (htau : tau ≠ 0) (hne : c ≠ t) : softUpdate tau c t ≠ t :=
  fun heq => hne (softUpdate_eq_iff tau c t h htau heq)

lemma process_forces (d d2 : PyDict)
    (h : processCriticParams d = some d2) :
    d2.nModels = some 2 ∧ d2.prediction = some "min" := by
  obtain ⟨n, p⟩ := d
  cases n with
  | none =>
      cases p with
      | none =>
          simp [processCriticParams, forceNModels, forceMin] at h
          subst h
          exact ⟨rfl, rfl⟩
      | some q =>
          by_cases hq : q = "min" <;>
            simp [processCriticParams, forceNModels, forceMin, hq] at h
          subst h
          exact ⟨rfl, rfl⟩
  | some k =>
      by_cases hk : k = 2
      · cases p with
        | none =>
            simp [processCriticParams, forceNModels, forceMin, hk] at h
            subst h
            exact ⟨rfl, rfl⟩
        | some q =>
            by_cases hq : q = "min" <;>
              simp [processCriticParams, forceNModels, forceMin, hk, hq] at h
            subst h
            exact ⟨rfl, rfl⟩
      · simp [processCriticParams, forceNModels, hk] at h

/-!
## The claims
-/

/-- C1: the spec claims `compute_action_and_log_prob_t` draws a
reparameterized, gradient-carrying sample, so that the returned
`(a_true, log_prob)` pair is a differentiable function of the mu/sigma
approximator outputs.  The code calls `dist.sample()` (sac.py line 58),
which torch executes under `torch.no_grad()`: evaluated at a concrete
training-mode input (both approximator outputs attached to the autograd
graph, noise `1`, action bounds `[-1, 1]`), the returned action `a_true`
comes out detached — it is not a differentiable function of the mu/sigma
outputs — while the log-prob is attached only through the density's
direct dependence on the parameters. -/
theorem C1_action_detached_at_failing_input :
    (aTrueDim (mkDim ⟨0, true⟩ ⟨0, true⟩ 1 (-1) 1)).grad = false ∧
    (logProbDim (mkDim ⟨0, true⟩ ⟨0, true⟩ 1 (-1) 1)).grad = true :=
  ⟨rfl, rfl⟩

/-- C5: with `compute_log_prob=True` the returned log-prob row is the
single-element row (the summed dimension is kept with size 1) holding the
per-row sum over action dimensions of the base Normal log-density of
`a_raw` minus `log(1 - tanh(a_raw)^2 + 1e-6)`; moreover the argument of
that `log` is strictly positive for every finite raw sample — and stays
so even at `tanh = ±1` — because of the `1e-6` stabilizer. -/
theorem C5_log_prob_formula_and_finiteness (row : List DimIn) :
    (computeActionAndLogProbT row).2.map TReal.val =
      [(row.map fun d =>
          (-((d.mu.val + Real.exp d.logSigma.val * d.eps - d.mu.val) ^ 2) /
              (2 * Real.exp d.logSigma.val ^ 2)
            - Real.log (Real.exp d.logSigma.val)
            - Real.log (Real.sqrt (2 * Real.pi)))
          - Real.log (1 -
              Real.tanh (d.mu.val + Real.exp d.logSigma.val * d.eps) ^ 2
              + 1e-6)).sum] ∧
    (∀ x : ℝ, 0 < 1 - Real.tanh x ^ 2 + 1e-6) ∧
    (∀ a : ℝ, a ^ 2 ≤ 1 → 0 < 1 - a ^ 2 + 1e-6) := by
  refine ⟨?_, ?_, ?_⟩
  · simp only [computeActionAndLogProbT, List.map_cons, List.map_nil,
      sumL_val, List.map_map]
    rfl
  · intro x
    have h1 := tanh_sq_lt_one x
    have h2 : (0 : ℝ) < 1e-6 := by norm_num
    linarith
  · intro a ha
    have h2 : (0 : ℝ) < 1e-6 := by norm_num
    linarith

/-- Witness for C5: the stabilized log argument is positive at the raw
sample `0` and even at a squashed value sitting exactly on the boundary
`a = 1`. -/
theorem C5_witness :
    (0 < 1 - Real.tanh 0 ^ 2 + 1e-6) ∧
    (0 < 1 - (1 : ℝ) ^ 2 + 1e-6) :=
  ⟨(C5_log_prob_formula_and_finiteness []).2.1 0,
   (C5_log_prob_formula_and_finiteness []).2.2 1 (by norm_num)⟩

/-- C6: for every state batch and finite raw sample, the action returned
by `compute_action_and_log_prob_t` lies within `[min_a, max_a]` per
dimension, given the construction-time bounds with a nonnegative range:
`tanh` maps into `(-1, 1)` and `a * _delta_a + _central_a` maps `(-1, 1)`
into the action range. -/
theorem C6_action_within_bounds (mu ls : TReal) (eps minA maxA : ℝ)
    (h : minA ≤ maxA) :
    minA ≤ (aTrueDim (mkDim mu ls eps minA maxA)).val ∧
    (aTrueDim (mkDim mu ls eps minA maxA)).val ≤ maxA := by
  have hval : (aTrueDim (mkDim mu ls eps minA maxA)).val
      = Real.tanh ((aRawDim (mkDim mu ls eps minA maxA)).val)
          * (0.5 * (maxA - minA)) + 0.5 * (maxA + minA) := rfl
  set x := (aRawDim (mkDim mu ls eps minA maxA)).val with hx
  have h1 := neg_one_lt_tanh x
  have h2 := tanh_lt_one x
  have hd : 0 ≤ maxA - minA := by linarith
  have hlo : 0 ≤ (Real.tanh x + 1) * (maxA - minA) :=
    mul_nonneg (by linarith) hd
  have hhi : 0 ≤ (1 - Real.tanh x) * (maxA - minA) :=
    mul_nonneg (by linarith) hd
  rw [hval]
  constructor
  · nlinarith [hlo]
  · nlinarith [hhi]

/-- Witness for C6 at bounds `[-1, 1]`, zero-mean unit-log-sigma policy
head outputs and zero noise. -/
theorem C6_witness :
    (-1 : ℝ) ≤ (aTrueDim (mkDim (TReal.c 0) (TReal.c 0) 0 (-1) 1)).val ∧
    (aTrueDim (mkDim (TReal.c 0) (TReal.c 0) 0 (-1) 1)).val ≤ 1 :=
  C6_action_within_bounds (TReal.c 0) (TReal.c 0) 0 (-1) 1 (by norm_num)

/-- C7: the soft update writes `tau * online_i + (1 - tau) * target_i`
independently into each of the two target members; with `tau = 1` the
target weights become exactly the online weights, with `tau = 0` they are
unchanged. -/
theorem C7_soft_update_endpoints {τ : Type} (s : SACState τ)
    (h0 : s.c0.length = s.t0.length) (h1 : s.c1.length = s.t1.length) :
    (updateTarget 1 s).t0 = s.c0 ∧ (updateTarget 1 s).t1 = s.c1 ∧
    (updateTarget 0 s).t0 = s.t0 ∧ (updateTarget 0 s).t1 = s.t1 :=
  ⟨softUpdate_one s.c0 s.t0 h0, softUpdate_one s.c1 s.t1 h1,
   softUpdate_zero s.c0 s.t0 h0, softUpdate_zero s.c1 s.t1 h1⟩

/-- Concrete SAC state used as soft-update witness. -/
def s7 : SACState Unit :=
  ⟨[], [], [], [1, 2], [3], [10, 20], [30], 0⟩

/-- Witness for C7 on concrete two-member weights. -/
theorem C7_witness :
    (updateTarget 1 s7).t0 = s7.c0 ∧ (updateTarget 1 s7).t1 = s7.c1 ∧
    (updateTarget 0 s7).t0 = s7.t0 ∧ (updateTarget 0 s7).t1 = s7.t1 :=
  C7_soft_update_endpoints s7 rfl rfl

/-- C8: immediately after `SAC.__init__` (which runs `_init_target`), each
target member's weights equal the corresponding online member's weights,
whatever the random initial weights of the four regressors were. -/
theorem C8_target_initialized_to_online (τ : Type)
    (muW sigmaW c0 c1 tInit0 tInit1 : Params) :
    ((mkSAC muW sigmaW c0 c1 tInit0 tInit1 : SACState τ).t0 = c0) ∧
    ((mkSAC muW sigmaW c0 c1 tInit0 tInit1 : SACState τ).t1 = c1) :=
  ⟨rfl, rfl⟩

/-- C2: once the replay memory is initialized, `fit` builds the critic
regression target as `reward + gamma * q_next`, where
`q_next = target_critic.predict(next_state, a') - alpha * log_prob(a')`
is zeroed on rows with `absorbing == 1`; for a sampled batch in which
every row is absorbing, the target equals the rewards exactly, whatever
the target critic predicts (the oracle `o`, hence `o.tpredict`, is
arbitrary), and the critic ensemble is fitted toward exactly those
rewards. -/
theorem C2_all_absorbing_target_is_reward {τ σ : Type} (cfg : SACCfg)
    (o : Oracle τ σ) (s : SACState τ) (dataset : List τ)
    (hinit : memInitialized cfg.initialSize (memAdd cfg.maxSize s.mem dataset))
    (habs : ∀ r ∈ sampledBatch cfg o s dataset, r.absorbing = 1) :
    fitTargets cfg o s dataset
        = (sampledBatch cfg o s dataset).map BatchRow.reward ∧
    (fit cfg o s dataset).c0
        = (o.criticStep (sampledBatch cfg o s dataset)
            ((sampledBatch cfg o s dataset).map BatchRow.reward)
            (actorPhase cfg o (sampledBatch cfg o s dataset)
              (memAdd cfg.maxSize s.mem dataset) s).c0
            (actorPhase cfg o (sampledBatch cfg o s dataset)
              (memAdd cfg.maxSize s.mem dataset) s).c1).1 ∧
    (fit cfg o s dataset).c1
        = (o.criticStep (sampledBatch cfg o s dataset)
            ((sampledBatch cfg o s dataset).map BatchRow.reward)
            (actorPhase cfg o (sampledBatch cfg o s dataset)
              (memAdd cfg.maxSize s.mem dataset) s).c0
            (actorPhase cfg o (sampledBatch cfg o s dataset)
              (memAdd cfg.maxSize s.mem dataset) s).c1).2 := by
  have htarget : fitTargets cfg o s dataset
      = (sampledBatch cfg o s dataset).map BatchRow.reward := by
    simp only [fitTargets, criticTargetBatch]
    refine List.map_eq_map_iff.mpr ?_
    intro r hr
    simp [nextQRow, habs r hr]
  refine ⟨htarget, ?_, ?_⟩ <;>
    simp only [fit, if_pos hinit, htarget, updateTarget]

/-- Concrete configuration for the fit-call witnesses: batch size 1,
initial replay size 1, max size 10, warmup 5, `tau = 1`, `gamma = 1`. -/
def cfgW : SACCfg := ⟨1, 1, 10, 5, 1, 1⟩

/-- Oracle whose sampler returns a single all-absorbing transition with
reward 5 and whose collaborator steps are concrete functions. -/
def oW : Oracle Unit Unit :=
  ⟨fun _ _ => [⟨(), (), 5, 1, []⟩], fun _ p => p, fun _ p => p,
   fun _ a => a, fun _ _ _ _ => ([1], [1]), fun _ _ _ _ => 42⟩

/-- Concrete pre-fit SAC state with one stored transition. -/
def sW : SACState Unit := ⟨[()], [0], [0], [0], [0], [0], [0], 0⟩

/-- Witness for C2: on the concrete all-absorbing batch the computed
critic regression target is exactly the reward `[5]`. -/
theorem C2_witness :
    fitTargets cfgW oW sW [] = (sampledBatch cfgW oW sW []).map BatchRow.reward :=
  (C2_all_absorbing_target_is_reward cfgW oW sW []
    (by decide)
    (by
      intro r hr
      have : r = ⟨(), (), 5, 1, []⟩ := List.mem_singleton.mp hr
      rw [this])).1

/-- C3: for a `fit` call made while the replay memory is initialized but
its (post-add) size is at most `warmup_transitions`, the actor's mu and
sigma weights and `log_alpha` are unchanged, while the critic members
change (they take the value produced by the critic regression step, here
assumed to actually move the weights) and the target members change (the
soft update is applied with `tau ≠ 0` to online weights that differ from
the targets). -/
theorem C3_warmup_trains_critic_only {τ σ : Type} (cfg : SACCfg)
    (o : Oracle τ σ) (s : SACState τ) (dataset : List τ)
    (hinit : memInitialized cfg.initialSize (memAdd cfg.maxSize s.mem dataset))
    (hwarm : memSize (memAdd cfg.maxSize s.mem dataset) ≤ cfg.warmup)
    (htau : cfg.tau ≠ 0)
    (hc0 : (o.criticStep (sampledBatch cfg o s dataset)
        (fitTargets cfg o s dataset) s.c0 s.c1).1 ≠ s.c0)
    (hc1 : (o.criticStep (sampledBatch cfg o s dataset)
        (fitTargets cfg o s dataset) s.c0 s.c1).2 ≠ s.c1)
    (hl0 : (o.criticStep (sampledBatch cfg o s dataset)
        (fitTargets cfg o s dataset) s.c0 s.c1).1.length = s.t0.length)
    (hl1 : (o.criticStep (sampledBatch cfg o s dataset)
        (fitTargets cfg o s dataset) s.c0 s.c1).2.length = s.t1.length)
    (hn0 : (o.criticStep (sampledBatch cfg o s dataset)
        (fitTargets cfg o s dataset) s.c0 s.c1).1 ≠ s.t0)
    (hn1 : (o.criticStep (sampledBatch cfg o s dataset)
        (fitTargets cfg o s dataset) s.c0 s.c1).2 ≠ s.t1) :
    (fit cfg o s dataset).muW = s.muW ∧
    (fit cfg o s dataset).sigmaW = s.sigmaW ∧
    (fit cfg o s dataset).logAlpha = s.logAlpha ∧
    (fit cfg o s dataset).c0 ≠ s.c0 ∧
    (fit cfg o s dataset).c1 ≠ s.c1 ∧
    (fit cfg o s dataset).t0 ≠ s.t0 ∧
    (fit cfg o s dataset).t1 ≠ s.t1 := by
  have hap : actorPhase cfg o (sampledBatch cfg o s dataset)
      (memAdd cfg.maxSize s.mem dataset) s = s := by
    simp [actorPhase, Nat.not_lt.mpr hwarm]
  simp only [fit, if_pos hinit, hap, updateTarget]
  exact ⟨trivial, trivial, trivial, hc0, hc1,
    softUpdate_ne cfg.tau _ s.t0 hl0 htau hn0,
    softUpdate_ne cfg.tau _ s.t1 hl1 htau hn1⟩

/-- Witness for C3 on the concrete state/oracle: replay size 1 is
initialized (threshold 1) and within warmup (5), the actor weights and
`log_alpha` survive the call, the critic moves from `[0]` to `[1]`, and
the target moves away from `[0]`. -/
theorem C3_witness :
    (fit cfgW oW sW ([] : List Unit)).muW = sW.muW ∧
    (fit cfgW oW sW []).sigmaW = sW.sigmaW ∧
    (fit cfgW oW sW []).logAlpha = sW.logAlpha ∧
    (fit cfgW oW sW []).c0 ≠ sW.c0 ∧
    (fit cfgW oW sW []).c1 ≠ sW.c1 ∧
    (fit cfgW oW sW []).t0 ≠ sW.t0 ∧
    (fit cfgW oW sW []).t1 ≠ sW.t1 :=
  C3_warmup_trains_critic_only cfgW oW sW []
    (by decide) (by decide)
    (by show (1 : ℝ) ≠ 0; norm_num)
    (by show [(1 : ℝ)] ≠ [0]; simp)
    (by show [(1 : ℝ)] ≠ [0]; simp)
    rfl rfl
    (by show [(1 : ℝ)] ≠ [0]; simp)
    (by show [(1 : ℝ)] ≠ [0]; simp)

/-- C4: a `fit` call that leaves the replay memory still uninitialized
appends the dataset to the memory and changes nothing else: all
approximator weights and `log_alpha` are exactly as before. -/
theorem C4_fit_noop_before_initialized {τ σ : Type} (cfg : SACCfg)
    (o : Oracle τ σ) (s : SACState τ) (dataset : List τ)
    (h : ¬ memInitialized cfg.initialSize (memAdd cfg.maxSize s.mem dataset)) :
    fit cfg o s dataset = { s with mem := memAdd cfg.maxSize s.mem dataset } := by
  simp only [fit, if_neg h]

/-- Concrete pre-init state: empty replay memory against threshold 1 in
`cfgW`, so adding nothing keeps the memory uninitialized. -/
def sEmpty : SACState Unit := ⟨[], [0], [0], [0], [0], [0], [0], 0⟩

/-- Witness for C4: with an empty replay memory and an empty dataset the
call only stores the (empty) dataset. -/
theorem C4_witness :
    fit cfgW oW sEmpty ([] : List Unit)
      = { sEmpty with mem := memAdd cfgW.maxSize sEmpty.mem [] } :=
  C4_fit_noop_before_initialized cfgW oW sEmpty [] (by decide)

/-- C9: the assertion-style checks of `SAC.__init__` (lines 123-131) fail
exactly when the caller supplies `'n_models'` different from 2 or
`'prediction'` different from `'min'`; when a key is absent construction
proceeds and the value is forced to `2` (respectively `'min'`), so every
dict that survives the checks carries `n_models = 2` and
`prediction = 'min'`. -/
theorem C9_construction_assertions (d : PyDict) :
    (processCriticParams d = none ↔
      (∃ n, d.nModels = some n ∧ n ≠ 2) ∨
      (∃ p, d.prediction = some p ∧ p ≠ "min")) ∧
    ∀ d2, processCriticParams d = some d2 →
      d2.nModels = some 2 ∧ d2.prediction = some "min" := by
  refine ⟨?_, fun d2 h => process_forces d d2 h⟩
  obtain ⟨n, p⟩ := d
  cases n with
  | none =>
      cases p with
      | none => simp [processCriticParams, forceNModels, forceMin]
      | some q =>
          by_cases hq : q = "min" <;>
            simp [processCriticParams, forceNModels, forceMin, hq]
  | some k =>
      by_cases hk : k = 2
      · cases p with
        | none => simp [processCriticParams, forceNModels, forceMin, hk]
        | some q =>
            by_cases hq : q = "min" <;>
              simp [processCriticParams, forceNModels, forceMin, hk, hq]
      · simp [processCriticParams, forceNModels, forceMin, hk]

/-- Witness for C9: the empty-keyed dict passes the checks and comes out
with both values forced. -/
theorem C9_witness :
    processCriticParams ⟨none, none⟩ = some ⟨some 2, some "min"⟩ ∧
    ((⟨some 2, some "min"⟩ : PyDict).nModels = some 2 ∧
      (⟨some 2, some "min"⟩ : PyDict).prediction = some "min") :=
  ⟨rfl, (C9_construction_assertions ⟨none, none⟩).2 ⟨some 2, some "min"⟩ rfl⟩

/-- C10: on the successful path, `SAC.__init__` mutates the caller's
`critic_params` object in place — after construction the caller's own ref
holds the processed dict with `n_models = 2` and `prediction = 'min'`
inserted — the target critic's dict is a fresh object (`deepcopy`) with
the same mutated value, and every other heap object (in particular the
caller's actor parameter dicts) is untouched. -/
theorem C10_caller_dict_mutated_in_place (heap : List PyDict)
    (criticRef : ℕ) (heap2 : List PyDict) (tRef : ℕ)
    (h : sacInitDicts heap criticRef = some (heap2, tRef)) :
    (∃ d d2, heap[criticRef]? = some d ∧ processCriticParams d = some d2 ∧
      heap2[criticRef]? = some d2 ∧
      d2.nModels = some 2 ∧ d2.prediction = some "min") ∧
    tRef ≠ criticRef ∧
    heap2[tRef]? = heap2[criticRef]? ∧
    ∀ j, j ≠ criticRef → j ≠ tRef → heap2[j]? = heap[j]? := by
  unfold sacInitDicts at h
  split at h
  · exact absurd h (by simp)
  · rename_i d hval
    split at h
    · exact absurd h (by simp)
    · rename_i d2 hproc
      have hpair := Option.some_inj.mp h
      have hheap2 : heap2 = heap.set criticRef d2 ++ [d2] :=
        (congrArg Prod.fst hpair).symm
      have htRef : tRef = heap.length :=
        (congrArg Prod.snd hpair).symm
      have hlt : criticRef < heap.length :=
        (List.getElem?_eq_some_iff.mp hval).1
      have hsetlen : (heap.set criticRef d2).length = heap.length :=
        List.length_set ..
      have hat : heap2[criticRef]? = some d2 := by
        rw [hheap2, List.getElem?_append_left (by omega),
          List.getElem?_set_eq_of_lt d2 hlt]
      have hcopy : heap2[tRef]? = some d2 := by
        rw [hheap2, htRef,
          List.getElem?_append_right (by omega)]
        simp [hsetlen]
      obtain ⟨hf, hp⟩ := process_forces d d2 hproc
      refine ⟨⟨d, d2, hval, hproc, hat, hf, hp⟩, by omega,
        by rw [hcopy, hat], ?_⟩
      intro j hjc hjt
      rcases lt_or_ge j heap.length with hj | hj
      · rw [hheap2, List.getElem?_append_left (by omega),
          List.getElem?_set_ne (Ne.symm hjc)]
      · have hnone : heap[j]? = none :=
          List.getElem?_eq_none_iff.mpr hj
        rw [hheap2, hnone,
          List.getElem?_append_right (by omega)]
        have : 1 ≤ j - (heap.set criticRef d2).length := by omega
        exact List.getElem?_eq_none_iff.mpr (by simpa using this)

/-- Concrete caller heap for the C10 witness: slot 0 is the caller's
`critic_params` (both keys absent), slot 1 stands for an actor params
dict. -/
def heapW : List PyDict := [⟨none, none⟩, ⟨some 2, none⟩]

/-- Witness for C10: running the dict phase on `heapW` mutates slot 0 in
place, leaves slot 1 alone, and allocates the deep copy at slot 2. -/
theorem C10_witness :
    ([⟨some 2, some "min"⟩, ⟨some 2, none⟩, ⟨some 2, some "min"⟩] :
        List PyDict)[(2 : ℕ)]?
      = ([⟨some 2, some "min"⟩, ⟨some 2, none⟩, ⟨some 2, some "min"⟩] :
        List PyDict)[(0 : ℕ)]? ∧
    ∀ j, j ≠ 0 → j ≠ 2 →
      ([⟨some 2, some "min"⟩, ⟨some 2, none⟩, ⟨some 2, some "min"⟩] :
        List PyDict)[j]? = heapW[j]? := by
  have h := C10_caller_dict_mutated_in_place heapW 0
    [⟨some 2, some "min"⟩, ⟨some 2, none⟩, ⟨some 2, some "min"⟩] 2 rfl
  exact ⟨h.2.2.1, h.2.2.2⟩

end SACSpec
